import Mathlib

/-!
Shallow embedding of `src/backend/integrations/hubspot.py` (OAuth2 flow and
paginated HubSpot metadata aggregation) together with proofs settling the
claims about it.

Modelling conventions:
* JSON documents are the inductive `Json` below; Python values that may be
  `None` are `Option Json` (with `none` standing for Python `None`).
* The redis store holds, per key, the JSON value whose `json.dumps` string the
  code stores; `json.dumps` / `json.loads` on that trusted channel are modelled
  as the identity on `Json` (the code only ever stores output of `json.dumps`).
  The inbound `state` query parameter, by contrast, is untrusted text, so it is
  modelled by `StateParam`, which distinguishes a missing parameter, a present
  but non-JSON string, and a string parsing to a `Json` value.
* Python exceptions that the code does not catch are surfaced as
  `Except.error` values of type `PyErr`; `fastapi.HTTPException` is the
  `Failure.httpError` constructor (status code and detail string).
* Randomness (`secrets.token_urlsafe`), TTL expiry of redis keys, and the HTTP
  transport are outside the model: the random token and the provider's
  responses are taken as parameters, and expiry never fires.
-/

/-- JSON values as produced by Python's `json` module / `response.json()`.
Numbers are modelled as integers (no claim involves fractional numbers), and
objects as association lists without duplicate keys, in insertion order. -/
inductive Json where
  | null
  | bool (b : Bool)
  | num (n : Int)
  | str (s : String)
  | arr (xs : List Json)
  | obj (fields : List (String × Json))

/-- Python truthiness (`bool(x)`) of a JSON value: `None`, `False`, `0`, `""`,
`[]` and the empty dict are falsy, everything else truthy. -/
def Json.truthy : Json → Bool
  | .null => false
  | .bool b => b
  | .num n => decide (n ≠ 0)
  | .str s => decide (s ≠ "")
  | .arr xs => !xs.isEmpty
  | .obj fs => !fs.isEmpty

/-- Python truthiness of a value that may be `None`. -/
def pyTruthy : Option Json → Bool
  | none => false
  | some j => j.truthy

mutual

/-- Structural equality of JSON values, modelling Python `==` on the values the
code compares (strings, in every reachable comparison). Python dict equality
is order-insensitive; this model compares field lists in order, which agrees
with Python on the comparisons the theorems use (scalar state tokens). -/
def Json.beq : Json → Json → Bool
  | .null, .null => true
  | .bool a, .bool b => a == b
  | .num a, .num b => a == b
  | .str a, .str b => a == b
  | .arr xs, .arr ys => Json.beqList xs ys
  | .obj fs, .obj gs => Json.beqFields fs gs
  | _, _ => false

/-- Elementwise `Json.beq` on lists. -/
def Json.beqList : List Json → List Json → Bool
  | [], [] => true
  | x :: xs, y :: ys => Json.beq x y && Json.beqList xs ys
  | _, _ => false

/-- Elementwise `Json.beq` on object field lists. -/
def Json.beqFields : List (String × Json) → List (String × Json) → Bool
  | [], [] => true
  | (k, v) :: fs, (l, w) :: gs => k == l && (Json.beq v w && Json.beqFields fs gs)
  | _, _ => false

end

/-- Python `==` on two possibly-`None` values. -/
def pyEqOpt : Option Json → Option Json → Bool
  | none, none => true
  | some a, some b => Json.beq a b
  | _, _ => false

/-- Python `!=` on two possibly-`None` values. -/
def pyNeOpt (a b : Option Json) : Bool := !pyEqOpt a b

mutual

/-- Python `repr` of a JSON value (used by `str` for lists and dicts inside
f-strings). Strings are single-quoted; escaping of quotes inside strings is
not modelled (no claim exercises it). -/
def pyRepr : Json → String
  | .null => "None"
  | .bool true => "True"
  | .bool false => "False"
  | .num n => toString n
  | .str s => "\x27" ++ s ++ "\x27"
  | .arr xs => "[" ++ pyReprElems xs ++ "]"
  | .obj fs => "\x7b" ++ pyReprFields fs ++ "\x7d"

/-- Comma-separated `pyRepr`s of list elements. -/
def pyReprElems : List Json → String
  | [] => ""
  | [x] => pyRepr x
  | x :: xs => pyRepr x ++ ", " ++ pyReprElems xs

/-- Comma-separated `key: value` renderings of dict fields. -/
def pyReprFields : List (String × Json) → String
  | [] => ""
  | [(k, v)] => "\x27" ++ k ++ "\x27: " ++ pyRepr v
  | (k, v) :: fs => "\x27" ++ k ++ "\x27: " ++ pyRepr v ++ ", " ++ pyReprFields fs

end

/-- Python `str()` of a JSON value, as interpolated by an f-string. -/
def pyStrOf : Json → String
  | .null => "None"
  | .bool true => "True"
  | .bool false => "False"
  | .num n => toString n
  | .str s => s
  | .arr xs => pyRepr (.arr xs)
  | .obj fs => pyRepr (.obj fs)

/-- Python `str()` of a possibly-`None` value (f-string interpolation renders
`None` as the four-character string). -/
def pyStrOfOpt : Option Json → String
  | none => "None"
  | some j => pyStrOf j

/-- Key lookup in a JSON object's field list (first match; dicts have no
duplicate keys). -/
def jsonLookup : List (String × Json) → String → Option Json
  | [], _ => none
  | (k, v) :: fs, key => if k = key then some v else jsonLookup fs key

/-- Uncaught Python exceptions that the embedded code can raise. -/
inductive PyErr where
  | typeError
  | valueError
  | attributeError
deriving DecidableEq

/-- Python `d.get(key)`: `AttributeError` when the receiver is not a dict,
otherwise the stored value (possibly `Json.null`) or `None` when absent. -/
def pyObjGet (j : Json) (key : String) : Except PyErr (Option Json) :=
  match j with
  | .obj fs => .ok (jsonLookup fs key)
  | _ => .error .attributeError

/-- Python `d.get(key, default)`: like `pyObjGet` but substituting the default
only when the key is absent. -/
def pyObjGetD (j : Json) (key : String) (d : Json) : Except PyErr Json :=
  match j with
  | .obj fs => .ok ((jsonLookup fs key).getD d)
  | _ => .error .attributeError

/-- Python `list.extend(x)`: iterating a JSON value. Lists yield their
elements, strings their characters, dicts their keys; scalars raise
`TypeError`. -/
def pyIter (j : Json) : Except PyErr (List Json) :=
  match j with
  | .arr xs => .ok xs
  | .str s => .ok (s.data.map fun c => Json.str (String.singleton c))
  | .obj fs => .ok (fs.map fun kv => Json.str kv.fst)
  | _ => .error .typeError

/-- Python `a or b` on possibly-`None` values (first operand when truthy,
otherwise the second; both operand expressions here are effect-free). -/
def pyOr (a b : Option Json) : Option Json := if pyTruthy a then a else b

/-- Python `str.strip()` (default whitespace stripping; the code only ever
strips ASCII spaces, which `Char.isWhitespace` covers). -/
def pyStrip (s : String) : String :=
  ⟨((s.data.dropWhile Char.isWhitespace).reverse.dropWhile
      Char.isWhitespace).reverse⟩

/-- Python `str.rstrip("s")`: drop every trailing `s` character. -/
def pyRstripS (s : String) : String :=
  ⟨(s.data.reverse.dropWhile (· = 's')).reverse⟩

/-- One step of Python `str.title()`: upper-case a letter after a non-letter,
lower-case a letter after a letter. -/
def pyTitleGo : Bool → List Char → List Char
  | _, [] => []
  | prevAlpha, c :: cs =>
    let c' := if c.isAlpha then (if prevAlpha then c.toLower else c.toUpper) else c
    c' :: pyTitleGo c.isAlpha cs

/-- Python `str.title()`. -/
def pyTitle (s : String) : String := ⟨pyTitleGo false s.data⟩

/-- Truthiness of an optional query-parameter string (`None` and `""` falsy). -/
def optStrTruthy : Option String → Bool
  | none => false
  | some "" => false
  | some _ => true

/-- The redis store, restricted to the keys this module uses: a key-to-value
map where the value is the `Json` whose `json.dumps` string the code stored.
The most recent binding for a key is the first matching entry. TTL expiry is
not modelled (no claim depends on it firing). -/
abbrev Store := List (String × Json)

/-- redis GET (via `get_value_redis`). -/
def storeGet : Store → String → Option Json
  | [], _ => none
  | (k, v) :: s, key => if k = key then some v else storeGet s key

/-- redis SET (via `add_key_value_redis`; the expiry argument is dropped). -/
def storeSet (s : Store) (key : String) (v : Json) : Store := (key, v) :: s

/-- redis DELETE (via `delete_key_redis`). -/
def storeDel (s : Store) (key : String) : Store :=
  s.filter fun kv => kv.fst ≠ key

/-- The f-string `hubspot_state:{org_id}:{user_id}`. -/
def stateKey (org_id user_id : String) : String :=
  "hubspot_state:" ++ org_id ++ ":" ++ user_id

/-- The f-string `hubspot_credentials:{org_id}:{user_id}`. -/
def credKey (org_id user_id : String) : String :=
  "hubspot_credentials:" ++ org_id ++ ":" ++ user_id

/-- Client-visible or uncaught failure of a request handler:
`httpError` is `fastapi.HTTPException(status_code, detail)` (surfaced to the
client with its detail string); `unhandled` is a Python exception the code
does not catch (surfaced as an internal server error). -/
inductive Failure where
  | httpError (status : Nat) (detail : String)
  | unhandled (e : PyErr)
deriving DecidableEq

/-- Whether a failure is a client-visible `HTTPException` (as opposed to an
uncaught exception). -/
def Failure.isClientVisible : Failure → Bool
  | .httpError _ _ => true
  | .unhandled _ => false

/-- Modelled from the spec: the `IntegrationItem` class (its module
`integrations/integration_item.py` is not part of the sources), a plain record
with the fields the spec lists, each keyword argument stored as given.
Fields not passed by this module (`parent_id`, `parent_path_or_name`) default
to `None`. -/
structure IntegrationItem where
  id : String
  type : String
  name : Option Json
  creation_time : Option Json
  last_modified_time : Option Json
  parent_id : Option Json := none
  parent_path_or_name : Option Json := none

/-- `os.getenv("HUBSPOT_CLIENT_ID")`: environment-supplied; its value is
irrelevant to every property proved below. -/
def CLIENT_ID : String := "HUBSPOT_CLIENT_ID"

/-- `os.getenv("HUBSPOT_CLIENT_SECRET")`: environment-supplied. -/
def CLIENT_SECRET : String := "HUBSPOT_CLIENT_SECRET"

/-- The module-level `REDIRECT_URI` constant. -/
def REDIRECT_URI : String := "http://localhost:8000/integrations/hubspot/oauth2callback"

/-- The module-level `scopes` constant. -/
def scopes : String :=
  "contacts crm.objects.contacts.read crm.objects.companies.read " ++
  "crm.objects.deals.read crm.objects.line_items.read " ++
  "crm.objects.quotes.read crm.objects.tasks.read crm.objects.calls.read " ++
  "crm.objects.meetings.read crm.objects.notes.read crm.objects.emails.read"

/-- The query parameters of the authorization URL built by
`authorize_hubspot` (the URL is `authorization_url` with these parameters
URL-encoded; encoding and the provider's echo of `state` are faithful
transports, so `state` is carried as the `Json` value whose `json.dumps`
string is embedded). -/
structure AuthUrlParams where
  client_id : String
  redirect_uri : String
  scope : String
  state : Json

/-- The serialized state record `json.dumps({'state': token, 'user_id': …,
'org_id': …})` built by `authorize_hubspot`, as its parsed `Json` value. -/
def stateDataJson (token user_id org_id : String) : Json :=
  .obj [("state", .str token), ("user_id", .str user_id), ("org_id", .str org_id)]

/-- `authorize_hubspot(user_id, org_id)`. The random token
`secrets.token_urlsafe(32)` is taken as the parameter `token`. Returns the
authorization URL's parameters and the store after stashing the state
record. -/
def authorize_hubspot (user_id org_id token : String) (store : Store) :
    AuthUrlParams × Store :=
  let state_data := stateDataJson token user_id org_id
  let store' := storeSet store (stateKey org_id user_id) state_data
  ({ client_id := CLIENT_ID, redirect_uri := REDIRECT_URI, scope := scopes,
     state := state_data }, store')

/-- The inbound `state` query parameter of the callback, as seen by
`json.loads`: absent, present but not valid JSON, or present and parsing to a
`Json` value. -/
inductive StateParam where
  | missing
  | malformed
  | value (j : Json)

/-- `json.loads(request.query_params.get('state'))`: a missing parameter is
`json.loads(None)`, a `TypeError`; an unparseable string raises
`json.JSONDecodeError`, a `ValueError`. -/
def loadsStateParam : StateParam → Except PyErr Json
  | .missing => .error .typeError
  | .malformed => .error .valueError
  | .value j => .ok j

/-- The query parameters of an inbound callback request. -/
structure CallbackRequest where
  error : Option String
  code : Option String
  state : StateParam

/-- `oauth2callback_hubspot(request)`. `tokenResp` is the provider's response
(status code and JSON body) to the token-exchange POST; the
`asyncio.gather` of the POST and the state-key deletion is modelled by
performing the deletion and obtaining the response before the status check.
Returns the outcome (`.ok ()` is the window-closing HTML response) and the
resulting store. -/
def oauth2callback_hubspot (req : CallbackRequest) (store : Store)
    (tokenResp : Nat × Json) : Except Failure Unit × Store :=
  if optStrTruthy req.error then
    (.error (.httpError 400 (req.error.getD "")), store)
  else
    match loadsStateParam req.state with
    | .error e => (.error (.unhandled e), store)
    | .ok state_data =>
      match pyObjGet state_data "state" with
      | .error e => (.error (.unhandled e), store)
      | .ok original_state =>
        match pyObjGet state_data "user_id" with
        | .error e => (.error (.unhandled e), store)
        | .ok user_id =>
          match pyObjGet state_data "org_id" with
          | .error e => (.error (.unhandled e), store)
          | .ok org_id =>
            let key := "hubspot_state:" ++ pyStrOfOpt org_id ++ ":" ++ pyStrOfOpt user_id
            match storeGet store key with
            | none => (.error (.httpError 400 "State does not match."), store)
            | some saved_state =>
              match pyObjGet saved_state "state" with
              | .error e => (.error (.unhandled e), store)
              | .ok saved_token =>
                if pyNeOpt original_state saved_token then
                  (.error (.httpError 400 "State does not match."), store)
                else
                  let store₁ := storeDel store key
                  if tokenResp.fst ≠ 200 then
                    (.error (.httpError 400 "Failed to exchange code for token"), store₁)
                  else
                    (.ok (), storeSet store₁
                      ("hubspot_credentials:" ++ pyStrOfOpt org_id ++ ":" ++ pyStrOfOpt user_id)
                      tokenResp.snd)

/-- `get_hubspot_credentials(user_id, org_id)`. Returns the parsed credential
or the failure, together with the resulting store. -/
def get_hubspot_credentials (user_id org_id : String) (store : Store) :
    Except Failure Json × Store :=
  match storeGet store (credKey org_id user_id) with
  | none => (.error (.httpError 400 "No credentials found."), store)
  | some credentials =>
    -- `json.loads` of the stored string is the stored `Json` value.
    if !credentials.truthy then
      (.error (.httpError 400 "No credentials found."), store)
    else
      (.ok credentials, storeDel store (credKey org_id user_id))

/-- `create_integration_item_metadata_object(response_json, item_type)`
(`parent_id` and `parent_name` are never passed by this module and default to
`None`). Uncaught exceptions (attribute errors on non-dict values) surface as
`Except.error`. -/
def create_integration_item_metadata_object (response_json : Json)
    (item_type : String) : Except PyErr IntegrationItem := do
  let name : Option Json ←
    if item_type = "contact" then do
      let properties ← pyObjGetD response_json "properties" (.obj [])
      let firstname := (← pyObjGet properties "firstname").getD (.str "")
      let lastname := (← pyObjGet properties "lastname").getD (.str "")
      let email := (← pyObjGet properties "email").getD (.str "")
      if firstname.truthy || lastname.truthy then
        pure (some (.str (pyStrip (pyStrOf firstname ++ " " ++ pyStrOf lastname))))
      else if email.truthy then
        pure (some email)
      else do
        let idv ← pyObjGetD response_json "id" (.str "Unknown")
        pure (some (.str ("Contact " ++ pyStrOf idv)))
    else if item_type = "company" then do
      let properties ← pyObjGetD response_json "properties" (.obj [])
      let nm ← pyObjGet properties "name"
      let dm ← pyObjGet properties "domain"
      let idv ← pyObjGetD response_json "id" (.str "Unknown")
      pure (pyOr nm (pyOr dm (some (.str ("Company " ++ pyStrOf idv)))))
    else if item_type = "deal" then do
      let properties ← pyObjGetD response_json "properties" (.obj [])
      let dn ← pyObjGet properties "dealname"
      let idv ← pyObjGetD response_json "id" (.str "Unknown")
      pure (pyOr dn (some (.str ("Deal " ++ pyStrOf idv))))
    else do
      let properties ← pyObjGetD response_json "properties" (.obj [])
      let nm ← pyObjGet properties "name"
      let sj ← pyObjGet properties "subject"
      let idv ← pyObjGetD response_json "id" (.str "Unknown")
      pure (pyOr nm (pyOr sj (some (.str (pyTitle item_type ++ " " ++ pyStrOf idv)))))
  -- created_time / modified_time: `a or b` short-circuits, so the nested
  -- `properties` access only happens (and can only raise) when `a` is falsy.
  let createdTop ← pyObjGet response_json "createdAt"
  let created_time ←
    if pyTruthy createdTop then pure createdTop
    else do
      let properties ← pyObjGetD response_json "properties" (.obj [])
      pyObjGet properties "createdate"
  let updatedTop ← pyObjGet response_json "updatedAt"
  let modified_time ←
    if pyTruthy updatedTop then pure updatedTop
    else do
      let properties ← pyObjGetD response_json "properties" (.obj [])
      pyObjGet properties "lastmodifieddate"
  let rawId ← pyObjGet response_json "id"
  pure { id := pyStrOfOpt rawId ++ "_" ++ item_type
         type := item_type
         name := name
         creation_time := created_time
         last_modified_time := modified_time }

/-- The `while True` pagination loop of `fetch_hubspot_objects`, with an
explicit fuel bound on the number of page requests (the theorems always
supply fuel at least the number of pages the server serves, so the zero-fuel
clause is never reached under their hypotheses). `getPage limit cursor` is
the HTTP world: the status code and JSON body the API returns for a GET with
the given `limit`, and with the `after` parameter present exactly when
`cursor` is `some`. -/
def fetchLoop (getPage : Nat → Option Json → Nat × Json) (limit : Nat) :
    Nat → Option Json → List Json → Except PyErr (List Json)
  | 0, _, acc => .ok acc
  | fuel + 1, after, acc =>
    let resp := getPage limit (if pyTruthy after then after else none)
    if resp.fst ≠ 200 then
      .ok acc
    else
      match pyObjGetD resp.snd "results" (.arr []) with
      | .error e => .error e
      | .ok resultsJ =>
        match pyIter resultsJ with
        | .error e => .error e
        | .ok results =>
          match pyObjGetD resp.snd "paging" (.obj []) with
          | .error e => .error e
          | .ok paging =>
            match pyObjGetD paging "next" (.obj []) with
            | .error e => .error e
            | .ok nextObj =>
              match pyObjGet nextObj "after" with
              | .error e => .error e
              | .ok afterNew =>
                if pyTruthy afterNew then
                  fetchLoop getPage limit fuel afterNew (acc ++ results)
                else
                  .ok (acc ++ results)

/-- `fetch_hubspot_objects(access_token, object_type, limit=100)`. The access
token and object type only select the endpoint and headers, which `getPage`
already closes over. -/
def fetch_hubspot_objects (getPage : Nat → Option Json → Nat × Json)
    (limit : Nat) (fuel : Nat) : Except PyErr (List Json) :=
  fetchLoop getPage limit fuel none []

/-- The ordered `object_types` list of `get_items_hubspot`. -/
def object_types : List String :=
  ["contacts", "companies", "deals", "tickets", "tasks", "calls", "meetings",
   "notes", "emails"]

/-- The inner `for obj in objects` loop of `get_items_hubspot`: convert
records one by one, appending each to the accumulator; the first conversion
exception aborts the loop (it is caught by the per-type `try`), keeping the
items already appended. -/
def appendConverted (item_type : String) : List Json → List IntegrationItem →
    List IntegrationItem
  | [], acc => acc
  | o :: os, acc =>
    match create_integration_item_metadata_object o item_type with
    | .error _ => acc
    | .ok item => appendConverted item_type os (acc ++ [item])

/-- The outer `for object_type in object_types` loop of `get_items_hubspot`,
with its per-type `try`/`except` (any exception from the fetch or a
conversion is caught and the loop continues with the next type). `world t`
is the HTTP world for object type `t`. -/
def aggLoop (world : String → Nat → Option Json → Nat × Json) (fuel : Nat) :
    List String → List IntegrationItem → List IntegrationItem
  | [], acc => acc
  | t :: ts, acc =>
    let acc' :=
      match fetch_hubspot_objects (world t) 100 fuel with
      | .error _ => acc
      | .ok objs => appendConverted (pyRstripS t) objs acc
    aggLoop world fuel ts acc'

/-- `get_items_hubspot(credentials)`. `credentials` is the `Json` value the
initial `json.loads(credentials)` produced. -/
def get_items_hubspot (world : String → Nat → Option Json → Nat × Json)
    (fuel : Nat) (credentials : Json) : Except Failure (List IntegrationItem) :=
  match pyObjGet credentials "access_token" with
  | .error e => .error (.unhandled e)
  | .ok access_token =>
    if !pyTruthy access_token then
      .error (.httpError 400 "No access token found in credentials")
    else
      .ok (aggLoop world fuel object_types [])

/-- One page of a collection endpoint, as the pagination theorems describe the
server: the HTTP status, the records in `results`, and the `paging.next.after`
cursor (`none` when the body carries no `paging` object). -/
structure Page where
  status : Nat
  results : List Json
  next : Option String

/-- The JSON body of a page: `results` plus, when a next cursor exists, the
`paging.next.after` object around it. -/
def pageJson (p : Page) : Json :=
  .obj (("results", .arr p.results) ::
    (match p.next with
     | some c => [("paging", Json.obj [("next", Json.obj [("after", Json.str c)])])]
     | none => []))

/-- `Serves g limit c ps`: starting from the request with cursor `c`, the HTTP
world `g` (queried at page size `limit`) serves exactly the chain of pages
`ps` — every page before the last is a 200 whose `paging.next.after` is a
cursor value (a nonempty string, as actual cursors are; the code treats an
empty `after` the same as an absent one) addressing the next page, and the
chain ends either with a non-200 response or with a page with no next
cursor. -/
def Serves (g : Nat → Option Json → Nat × Json) (limit : Nat) :
    Option Json → List Page → Prop
  | _, [] => False
  | c, [p] => g limit c = (p.status, pageJson p) ∧ (p.status ≠ 200 ∨ p.next = none)
  | c, p :: q :: ps =>
    g limit c = (p.status, pageJson p) ∧ p.status = 200 ∧
      ∃ c', p.next = some c' ∧ c' ≠ "" ∧ Serves g limit (some (.str c')) (q :: ps)

/-- The records the pagination loop collects from a chain of pages: each 200
page contributes its `results` in order; a non-200 page contributes nothing
and ends the chain. -/
def collectPages : List Page → List Json
  | [] => []
  | p :: ps => if p.status = 200 then p.results ++ collectPages ps else []

/-- The items one object type contributes to the aggregation: none when the
fetch raises, otherwise the successfully converted records up to (and
excluding) the first conversion exception. -/
def convertPrefix (item_type : String) : List Json → List IntegrationItem
  | [] => []
  | o :: os =>
    match create_integration_item_metadata_object o item_type with
    | .error _ => []
    | .ok item => item :: convertPrefix item_type os

/-- The items object type `t` contributes to `get_items_hubspot`. -/
def itemsForType (world : String → Nat → Option Json → Nat × Json)
    (fuel : Nat) (t : String) : List IntegrationItem :=
  match fetch_hubspot_objects (world t) 100 fuel with
  | .error _ => []
  | .ok objs => convertPrefix (pyRstripS t) objs

/-- The concatenation, in type order, of every type's contributed items. -/
def itemsForTypes (world : String → Nat → Option Json → Nat × Json)
    (fuel : Nat) : List String → List IntegrationItem
  | [] => []
  | t :: ts => itemsForType world fuel t ++ itemsForTypes world fuel ts

/-- A credential body with a truthy `access_token`, as stored by a successful
callback. -/
def credsFixture : Json := .obj [("access_token", .str "T")]

/-- A companies record with a `domain` but no `name`
(`{"id": "7", "properties": {"domain": "example.com"}}`). -/
def companyRecDomain : Json :=
  .obj [("id", .str "7"), ("properties", .obj [("domain", .str "example.com")])]

/-- A world whose companies endpoint serves one page containing
`companyRecDomain`; every other request is a 404. -/
def worldCompanies : String → Nat → Option Json → Nat × Json
  | "companies", _, none => (200, pageJson ⟨200, [companyRecDomain], none⟩)
  | _, _, _ => (404, Json.null)

/-- The contact record `{"id": "1", "properties": {"firstname": "A",
"lastname": "B"}}`. -/
def contactRecAB : Json :=
  .obj [("id", .str "1"),
        ("properties", .obj [("firstname", .str "A"), ("lastname", .str "B")])]

/-- A companies record with id `"1"` and no name-bearing properties. -/
def companyRec1 : Json := .obj [("id", .str "1"), ("properties", .obj [])]

/-- A world serving one contacts page with `contactRecAB` and one companies
page with `companyRec1`; every other request is a 404. -/
def worldContactCompany : String → Nat → Option Json → Nat × Json
  | "contacts", _, none => (200, pageJson ⟨200, [contactRecAB], none⟩)
  | "companies", _, none => (200, pageJson ⟨200, [companyRec1], none⟩)
  | _, _, _ => (404, Json.null)

/-- A world where the contacts endpoint works and the companies endpoint
returns a 200 whose body is the number 3, so that `data.get('results', [])`
raises `AttributeError` inside the companies fetch. -/
def worldCompaniesRaise : String → Nat → Option Json → Nat × Json
  | "contacts", _, none => (200, pageJson ⟨200, [contactRecAB], none⟩)
  | "companies", _, _ => (200, Json.num 3)
  | _, _, _ => (404, Json.null)

/-- First page of the two-page pagination fixture: two records and a next
cursor `"cursorA"`. -/
def pageA : Page := ⟨200, [Json.str "r1", Json.str "r2"], some "cursorA"⟩

/-- Second page of the two-page pagination fixture: one record, no next
cursor. -/
def pageB : Page := ⟨200, [Json.str "r3"], none⟩

/-- A world serving `pageA` for the cursorless request and `pageB` at cursor
`"cursorA"`. -/
def twoPageWorld : Nat → Option Json → Nat × Json
  | _, none => (200, pageJson pageA)
  | _, some (Json.str "cursorA") => (200, pageJson pageB)
  | _, _ => (404, Json.null)

/-- A record whose fields are all absent (`{"properties": {}}`). -/
def noIdRecord : Json := .obj [("properties", .obj [])]

/-- A contact record with symbolic `id`, `firstname`, `lastname` and `email`
string fields (all present; an absent field behaves like `""` under
`properties.get(key, '')`). -/
def contactRecord (idv fn ln em : String) : Json :=
  .obj [("id", .str idv),
        ("properties", .obj [("firstname", .str fn), ("lastname", .str ln),
                             ("email", .str em)])]

/-- A deal record with symbolic `id` and `dealname` string fields. -/
def dealRecord (idv dn : String) : Json :=
  .obj [("id", .str idv), ("properties", .obj [("dealname", .str dn)])]

/-- A state parameter that is not a well-formed serialized state record in a
way the handler trips over before any client-visible error: missing,
unparseable, or parsing to a non-object. -/
def stateParamBad : StateParam → Bool
  | .missing => true
  | .malformed => true
  | .value (.obj _) => false
  | .value _ => true

/-- The uncaught exception such a state parameter produces: `TypeError` from
`json.loads(None)`, `ValueError` (`JSONDecodeError`) from an unparseable
string, `AttributeError` from `.get` on a non-dict parse result. -/
def stateParamErr : StateParam → PyErr
  | .missing => .typeError
  | .malformed => .valueError
  | .value _ => .attributeError

/-- Unfolding lemma for the pagination loop along a served chain of pages:
with enough fuel, the loop starting at cursor `c` returns the accumulator
followed by the chain's collected records. -/
theorem fetchLoop_serves (g : Nat → Option Json → Nat × Json) (limit : Nat) :
    ∀ (ps : List Page) (fuel : Nat) (c : Option Json) (acc : List Json),
      Serves g limit c ps → ps.length ≤ fuel →
      (if pyTruthy c then c else none) = c →
      fetchLoop g limit fuel c acc = .ok (acc ++ collectPages ps) := by
  intro ps
  induction ps with
  | nil =>
    intro fuel c acc hserves _ _
    exact absurd hserves (by simp [Serves])
  | cons p ps ih =>
    intro fuel c acc hserves hlen hc
    obtain ⟨status, results, next⟩ := p
    cases fuel with
    | zero => simp at hlen
    | succ n =>
      cases ps with
      | nil =>
        simp only [Serves] at hserves
        obtain ⟨hg, hlast⟩ := hserves
        by_cases hst : status = 200
        · subst hst
          have hn : next = none := by
            rcases hlast with hst' | hn
            · exact absurd rfl hst'
            · exact hn
          subst hn
          simp only [fetchLoop]
          rw [hc, hg]
          simp [pageJson, pyObjGetD, jsonLookup, pyIter, pyObjGet, pyTruthy,
            collectPages]
        · simp only [fetchLoop]
          rw [hc, hg]
          simp [hst, collectPages]
      | cons q ps' =>
        simp only [Serves] at hserves
        obtain ⟨hg, hst, c', hnext, hc', hrest⟩ := hserves
        subst hst
        subst hnext
        have ihres := ih n (some (.str c')) (acc ++ results) hrest
          (by simp only [List.length_cons] at hlen ⊢; omega)
          (by simp [pyTruthy, Json.truthy, hc'])
        simp only [fetchLoop]
        rw [hc, hg]
        simp [pageJson, pyObjGetD, jsonLookup, pyIter, pyObjGet, pyTruthy,
          Json.truthy, hc', collectPages, ihres]

theorem appendConverted_eq (t : String) (os : List Json) :
    ∀ acc, appendConverted t os acc = acc ++ convertPrefix t os := by
  induction os with
  | nil => intro acc; simp [appendConverted, convertPrefix]
  | cons o os ih =>
    intro acc
    simp only [appendConverted, convertPrefix]
    cases hcr : create_integration_item_metadata_object o t with
    | error e => simp
    | ok item => simp [ih]

theorem aggLoop_eq (world : String → Nat → Option Json → Nat × Json)
    (fuel : Nat) :
    ∀ (ts : List String) (acc : List IntegrationItem),
      aggLoop world fuel ts acc = acc ++ itemsForTypes world fuel ts := by
  intro ts
  induction ts with
  | nil => intro acc; simp [aggLoop, itemsForTypes]
  | cons t ts ih =>
    intro acc
    simp only [aggLoop, itemsForTypes]
    cases hf : fetch_hubspot_objects (world t) 100 fuel with
    | error e => simp [hf, ih, itemsForType]
    | ok objs => simp [hf, ih, itemsForType, appendConverted_eq]

theorem except_bind_ok {α β ε : Type} (x : α) (f : α → Except ε β) :
    (Except.ok x : Except ε α) >>= f = f x := rfl

theorem except_bind_error {α β ε : Type} (e : ε) (f : α → Except ε β) :
    (Except.error e : Except ε α) >>= f = .error e := rfl

theorem except_map_ok {α β ε : Type} (f : α → β) (x : α) :
    Except.map f (.ok x : Except ε α) = .ok (f x) := rfl

theorem except_map_error {α β ε : Type} (f : α → β) (e : ε) :
    Except.map f (.error e : Except ε α) = .error e := rfl

theorem except_pure {α ε : Type} (x : α) :
    (pure x : Except ε α) = .ok x := rfl

theorem storeGet_set_self (s : Store) (k : String) (v : Json) :
    storeGet (storeSet s k v) k = some v := by
  simp [storeGet, storeSet]

theorem storeGet_del_self (s : Store) (k : String) :
    storeGet (storeDel s k) k = none := by
  induction s with
  | nil => rfl
  | cons kv s ih =>
    obtain ⟨k', v⟩ := kv
    by_cases h : k' = k
    · simpa [storeDel, h] using ih
    · simpa [storeDel, storeGet, h] using ih

theorem storeGet_set_ne (s : Store) (k k' : String) (v : Json) (h : k' ≠ k) :
    storeGet (storeSet s k' v) k = storeGet s k := by
  simp [storeGet, storeSet, h]

theorem credKey_ne_stateKey (org_id user_id : String) :
    credKey org_id user_id ≠ stateKey org_id user_id := by
  intro h
  have h' := congrArg String.length h
  simp only [credKey, stateKey, String.length_append] at h'
  have h20 : ("hubspot_credentials:").length = 20 := by decide
  have h14 : ("hubspot_state:").length = 14 := by decide
  omega

/-- Evaluation of the callback handler on a request whose `state` parameter is
the serialized state record for `token`, `user_id`, `org_id`: the handler
reduces to the state-match check against the store, then (on a match) to the
state-key deletion and the token-exchange status check. -/
theorem oauth2callback_eval (store : Store) (user_id org_id token code : String)
    (tokenResp : Nat × Json) :
    oauth2callback_hubspot
        ⟨none, some code, .value (stateDataJson token user_id org_id)⟩
        store tokenResp =
      match storeGet store (stateKey org_id user_id) with
      | none => (.error (.httpError 400 "State does not match."), store)
      | some saved =>
        match pyObjGet saved "state" with
        | .error e => (.error (.unhandled e), store)
        | .ok savedTok =>
          if pyNeOpt (some (.str token)) savedTok then
            (.error (.httpError 400 "State does not match."), store)
          else if tokenResp.fst ≠ 200 then
            (.error (.httpError 400 "Failed to exchange code for token"),
             storeDel store (stateKey org_id user_id))
          else
            (.ok (), storeSet (storeDel store (stateKey org_id user_id))
              (credKey org_id user_id) tokenResp.snd) := rfl

/-- C1: refuted as stated — the aggregation passes
`'companies'.rstrip('s') = "companie"` as the item type, so the dedicated
`'company'` naming branch (name, else domain, else `"Company {id}"`) is never
taken; a companies record with a `domain` but no `name` gets the generic
fallback name `"Companie 7"` (from `item_type.title()`), not its domain.
This theorem evaluates the aggregation on such a record. -/
theorem c1_companies_name_bug :
    pyRstripS "companies" = "companie" ∧
    get_items_hubspot worldCompanies 1 credsFixture =
      .ok [{ id := "7_companie", type := "companie",
             name := some (.str "Companie 7"),
             creation_time := none, last_modified_time := none,
             parent_id := none, parent_path_or_name := none }] ∧
    "Companie 7" ≠ "example.com" := ⟨rfl, rfl, by decide⟩

/-- C2: the item id is the raw id, an underscore, and
`object_type.rstrip('s')` — which is the singular form for contacts
(`"1_contact"`, as claimed) but not for companies, where it yields
`"1_companie"` instead of `"1_company"`. This theorem evaluates the
aggregation on a contacts record and a companies record, both with raw id
`"1"`. -/
theorem c2_item_id_composition :
    (get_items_hubspot worldContactCompany 1 credsFixture).map
        (fun items => items.map fun it => it.id) =
      .ok ["1_contact", "1_companie"] ∧
    "1_companie" ≠ "1_company" := ⟨rfl, by decide⟩

/-- C3 counterexample: a callback request with no `state` parameter (which is
not a well-formed serialized state record) does not fail with a
client-visible error at all — `json.loads(None)` raises an uncaught
`TypeError`. -/
theorem c3_counterexample :
    oauth2callback_hubspot ⟨none, some "c", .missing⟩ [] (200, .obj []) =
      (.error (.unhandled .typeError), []) ∧
    Failure.isClientVisible (.unhandled .typeError) = false := ⟨rfl, rfl⟩

/-- C3 amended: for every inbound callback (with no `error` parameter) whose
`state` query parameter is missing, is not valid JSON, or parses to a
non-object, the handler raises an uncaught exception (surfaced as a server
error), leaving the store unchanged — it never produces a client-visible
`InvalidState` error (no such `HTTPException` exists in the handler). -/
theorem c3_malformed_state_unhandled (req : CallbackRequest) (store : Store)
    (tokenResp : Nat × Json) (herr : optStrTruthy req.error = false)
    (hbad : stateParamBad req.state = true) :
    oauth2callback_hubspot req store tokenResp =
      (.error (.unhandled (stateParamErr req.state)), store) := by
  obtain ⟨errp, codep, sp⟩ := req
  simp only at herr hbad ⊢
  cases sp with
  | missing =>
    simp [oauth2callback_hubspot, loadsStateParam, stateParamErr, herr]
  | malformed =>
    simp [oauth2callback_hubspot, loadsStateParam, stateParamErr, herr]
  | value j =>
    cases j with
    | obj fs => simp [stateParamBad] at hbad
    | null =>
      simp [oauth2callback_hubspot, loadsStateParam, pyObjGet, stateParamErr, herr]
    | bool b =>
      simp [oauth2callback_hubspot, loadsStateParam, pyObjGet, stateParamErr, herr]
    | num n =>
      simp [oauth2callback_hubspot, loadsStateParam, pyObjGet, stateParamErr, herr]
    | str s =>
      simp [oauth2callback_hubspot, loadsStateParam, pyObjGet, stateParamErr, herr]
    | arr xs =>
      simp [oauth2callback_hubspot, loadsStateParam, pyObjGet, stateParamErr, herr]

/-- Witness for the amended C3 at a concrete input: an unparseable `state`
string yields the uncaught `JSONDecodeError` (a `ValueError`). -/
theorem c3_malformed_state_unhandled_witness :
    oauth2callback_hubspot ⟨none, none, .malformed⟩ [] (200, .obj []) =
      (.error (.unhandled .valueError), []) :=
  c3_malformed_state_unhandled ⟨none, none, .malformed⟩ [] (200, .obj []) rfl rfl

/-- C4: on a callback whose parsed state names an `(org_id, user_id)` pair, (1) an
absent stored state record fails with the state-mismatch error, (2) a stored
record whose token differs from the incoming one (Python `!=`) fails the same
way, and (3) after a callback that passes the check, the stored record is
deleted — whatever the token-exchange status `tr` was — so an identical
second callback fails with the state-mismatch error. -/
theorem c4_state_check_and_single_use (store : Store)
    (user_id org_id token code : String) (tr tr₂ : Nat × Json) :
    (storeGet store (stateKey org_id user_id) = none →
      oauth2callback_hubspot
          ⟨none, some code, .value (stateDataJson token user_id org_id)⟩ store tr =
        (.error (.httpError 400 "State does not match."), store)) ∧
    (∀ saved savedTok, storeGet store (stateKey org_id user_id) = some saved →
      pyObjGet saved "state" = .ok savedTok →
      pyNeOpt (some (.str token)) savedTok = true →
      oauth2callback_hubspot
          ⟨none, some code, .value (stateDataJson token user_id org_id)⟩ store tr =
        (.error (.httpError 400 "State does not match."), store)) ∧
    (∀ saved, storeGet store (stateKey org_id user_id) = some saved →
      pyObjGet saved "state" = .ok (some (.str token)) →
      storeGet (oauth2callback_hubspot
          ⟨none, some code, .value (stateDataJson token user_id org_id)⟩
          store tr).snd (stateKey org_id user_id) = none ∧
      (oauth2callback_hubspot
          ⟨none, some code, .value (stateDataJson token user_id org_id)⟩
          (oauth2callback_hubspot
            ⟨none, some code, .value (stateDataJson token user_id org_id)⟩
            store tr).snd tr₂).fst =
        .error (.httpError 400 "State does not match.")) := by
  have hne : pyNeOpt (some (Json.str token)) (some (Json.str token)) = false := by
    simp [pyNeOpt, pyEqOpt, Json.beq]
  refine ⟨?_, ?_, ?_⟩
  · intro h
    rw [oauth2callback_eval, h]
  · intro saved savedTok hs hget hdiff
    rw [oauth2callback_eval]
    simp [hs, hget, hdiff]
  · intro saved hs hget
    have hsnd : storeGet (oauth2callback_hubspot
        ⟨none, some code, .value (stateDataJson token user_id org_id)⟩
        store tr).snd (stateKey org_id user_id) = none := by
      rw [oauth2callback_eval]
      by_cases h200 : tr.fst = 200
      · simp [hs, hget, hne, h200,
          storeGet_set_ne _ _ _ _ (credKey_ne_stateKey org_id user_id),
          storeGet_del_self]
      · simp [hs, hget, hne, h200, storeGet_del_self]
    refine ⟨hsnd, ?_⟩
    rw [oauth2callback_eval, hsnd]

/-- Witness for C4 at a concrete store holding a matching state record. -/
theorem c4_witness :
    storeGet (oauth2callback_hubspot
        ⟨none, some "c", .value (stateDataJson "T" "u" "o")⟩
        (storeSet [] (stateKey "o" "u") (stateDataJson "T" "u" "o"))
        (200, .obj [])).snd (stateKey "o" "u") = none ∧
    (oauth2callback_hubspot
        ⟨none, some "c", .value (stateDataJson "T" "u" "o")⟩
        (oauth2callback_hubspot
          ⟨none, some "c", .value (stateDataJson "T" "u" "o")⟩
          (storeSet [] (stateKey "o" "u") (stateDataJson "T" "u" "o"))
          (200, .obj [])).snd (200, .obj [])).fst =
      .error (.httpError 400 "State does not match.") :=
  (c4_state_check_and_single_use
      (storeSet [] (stateKey "o" "u") (stateDataJson "T" "u" "o"))
      "u" "o" "T" "c" (200, .obj []) (200, .obj [])).2.2
    (stateDataJson "T" "u" "o") rfl rfl

/-- C5: credential retrieval fails with the no-credentials error when the
stored credential is absent or parses falsy ("empty"), and on success
deletes the key and returns the parsed credential, so an immediate second
retrieval fails with the no-credentials error. -/
theorem c5_credentials_single_use (user_id org_id : String) (store : Store) :
    (storeGet store (credKey org_id user_id) = none →
      get_hubspot_credentials user_id org_id store =
        (.error (.httpError 400 "No credentials found."), store)) ∧
    (∀ cred, storeGet store (credKey org_id user_id) = some cred →
      cred.truthy = false →
      get_hubspot_credentials user_id org_id store =
        (.error (.httpError 400 "No credentials found."), store)) ∧
    (∀ cred, storeGet store (credKey org_id user_id) = some cred →
      cred.truthy = true →
      get_hubspot_credentials user_id org_id store =
        (.ok cred, storeDel store (credKey org_id user_id)) ∧
      (get_hubspot_credentials user_id org_id
          (get_hubspot_credentials user_id org_id store).snd).fst =
        .error (.httpError 400 "No credentials found.")) := by
  refine ⟨?_, ?_, ?_⟩
  · intro h
    simp [get_hubspot_credentials, h]
  · intro cred hs ht
    simp [get_hubspot_credentials, hs, ht]
  · intro cred hs ht
    have h1 : get_hubspot_credentials user_id org_id store =
        (.ok cred, storeDel store (credKey org_id user_id)) := by
      simp [get_hubspot_credentials, hs, ht]
    refine ⟨h1, ?_⟩
    rw [h1]
    simp [get_hubspot_credentials, storeGet_del_self]

/-- Witness for C5 at a concrete store holding a truthy credential. -/
theorem c5_witness :
    get_hubspot_credentials "u" "o" (storeSet [] (credKey "o" "u") credsFixture) =
      (.ok credsFixture,
       storeDel (storeSet [] (credKey "o" "u") credsFixture) (credKey "o" "u")) ∧
    (get_hubspot_credentials "u" "o"
        (get_hubspot_credentials "u" "o"
          (storeSet [] (credKey "o" "u") credsFixture)).snd).fst =
      .error (.httpError 400 "No credentials found.") :=
  (c5_credentials_single_use "u" "o"
      (storeSet [] (credKey "o" "u") credsFixture)).2.2 credsFixture rfl rfl

/-- C6: against a server that serves a chain of pages at page size 100 —
each page's `paging.next.after` cursor (when a cursor value is present)
addressing the next page — the fetch requests pages at limit 100 following
exactly those cursors, continues while a next cursor is present, stops when
it is absent, and returns all fetched pages' records concatenated in page
then within-page order; a chain ending in a non-200 response contributes
nothing from that response and the fetch returns the records accumulated
from the earlier pages. -/
theorem c6_pagination (g : Nat → Option Json → Nat × Json) (ps : List Page)
    (fuel : Nat) (hserves : Serves g 100 none ps) (hfuel : ps.length ≤ fuel) :
    fetch_hubspot_objects g 100 fuel = .ok (collectPages ps) := by
  have h := fetchLoop_serves g 100 ps fuel none [] hserves hfuel (by simp [pyTruthy])
  simpa [fetch_hubspot_objects] using h

/-- Witness for C6 on the concrete two-page chain: both pages' records are
returned in order. -/
theorem c6_witness :
    fetch_hubspot_objects twoPageWorld 100 2 =
      .ok [Json.str "r1", Json.str "r2", Json.str "r3"] :=
  c6_pagination twoPageWorld [pageA, pageB] 2
    ⟨rfl, rfl, ⟨"cursorA", rfl, by decide, rfl, Or.inr rfl⟩⟩ (by decide)

/-- C7: whenever the credential carries a truthy access token, the
aggregation returns `.ok` of the per-type contributions concatenated in type
order — for every world, including ones where fetching or converting some
types raises — so a per-type exception only empties (or truncates) that
type's contribution and is never propagated to the caller. -/
theorem c7_per_type_isolation (world : String → Nat → Option Json → Nat × Json)
    (fuel : Nat) (credentials : Json) (access_token : Option Json)
    (hat : pyObjGet credentials "access_token" = .ok access_token)
    (ht : pyTruthy access_token = true) :
    get_items_hubspot world fuel credentials =
      .ok (itemsForTypes world fuel object_types) := by
  unfold get_items_hubspot
  rw [hat]
  simp only [ht, Bool.not_true, Bool.false_eq_true, if_false]
  exact congrArg Except.ok
    ((aggLoop_eq world fuel object_types []).trans (List.nil_append _))

/-- Witness for C7: with the companies endpoint raising inside its fetch, the
contacts item is still returned and the aggregation succeeds. -/
theorem c7_witness :
    get_items_hubspot worldCompaniesRaise 1 credsFixture =
      .ok [{ id := "1_contact", type := "contact", name := some (.str "A B"),
             creation_time := none, last_modified_time := none,
             parent_id := none, parent_path_or_name := none }] :=
  (c7_per_type_isolation worldCompaniesRaise 1 credsFixture
    (some (.str "T")) rfl rfl).trans (by rfl)

/-- Evaluation of the callback when the store holds exactly the matching
state record and the token exchange returns 200: the state key is consumed
and the credential stored. -/
theorem oauth2callback_matched (store : Store) (uid oid tok code : String)
    (body : Json)
    (hs : storeGet store (stateKey oid uid) = some (stateDataJson tok uid oid)) :
    oauth2callback_hubspot ⟨none, some code, .value (stateDataJson tok uid oid)⟩
        store (200, body) =
      (.ok (), storeSet (storeDel store (stateKey oid uid)) (credKey oid uid) body) := by
  rw [oauth2callback_eval, hs]
  simp [pyObjGet, stateDataJson, jsonLookup, pyNeOpt, pyEqOpt, Json.beq]

/-- C8: for all `(user_id, org_id)`, the `state` parameter of the
authorization URL built by the initiator parses back to the same `user_id`
and `org_id`, and a callback carrying that very parameter (against the store
the initiator left, with a 200 token exchange) passes the state check and
stores the credential under the same `(org_id, user_id)` key. -/
theorem c8_state_roundtrip (user_id org_id token code : String) (store : Store)
    (body : Json) :
    pyObjGet (authorize_hubspot user_id org_id token store).fst.state "user_id" =
      .ok (some (.str user_id)) ∧
    pyObjGet (authorize_hubspot user_id org_id token store).fst.state "org_id" =
      .ok (some (.str org_id)) ∧
    (oauth2callback_hubspot
        ⟨none, some code,
         .value (authorize_hubspot user_id org_id token store).fst.state⟩
        (authorize_hubspot user_id org_id token store).snd (200, body)).fst =
      .ok () ∧
    storeGet (oauth2callback_hubspot
        ⟨none, some code,
         .value (authorize_hubspot user_id org_id token store).fst.state⟩
        (authorize_hubspot user_id org_id token store).snd (200, body)).snd
      (credKey org_id user_id) = some body := by
  have hcb := oauth2callback_matched
    (storeSet store (stateKey org_id user_id) (stateDataJson token user_id org_id))
    user_id org_id token code body
    (storeGet_set_self store (stateKey org_id user_id)
      (stateDataJson token user_id org_id))
  refine ⟨rfl, rfl, ?_, ?_⟩
  · show (oauth2callback_hubspot
        ⟨none, some code, .value (stateDataJson token user_id org_id)⟩
        (storeSet store (stateKey org_id user_id)
          (stateDataJson token user_id org_id)) (200, body)).fst = .ok ()
    rw [hcb]
  · show storeGet (oauth2callback_hubspot
        ⟨none, some code, .value (stateDataJson token user_id org_id)⟩
        (storeSet store (stateKey org_id user_id)
          (stateDataJson token user_id org_id)) (200, body)).snd
      (credKey org_id user_id) = some body
    rw [hcb]
    exact storeGet_set_self _ _ _

/-- C9: name derivation for contact records follows
firstname-lastname (joined by a space and stripped) when either is a
nonempty string, else a nonempty email, else `"Contact {id}"` — with the
spec's concrete contact example — and for deal records follows a nonempty
`dealname`, else `"Deal {id}"` — with the spec's concrete deal example
(id `"42"`, no name-bearing fields). -/
theorem c9_name_derivation (idv fn ln em dn : String) :
    ((create_integration_item_metadata_object (contactRecord idv fn ln em)
        "contact").map (fun it => it.name) =
      .ok (some (.str (if fn ≠ "" ∨ ln ≠ "" then pyStrip (fn ++ " " ++ ln)
        else if em ≠ "" then em else "Contact " ++ idv)))) ∧
    ((create_integration_item_metadata_object contactRecAB
        (pyRstripS "contacts")).map (fun it => it.name) =
      .ok (some (.str "A B"))) ∧
    ((create_integration_item_metadata_object (dealRecord idv dn) "deal").map
        (fun it => it.name) =
      .ok (some (.str (if dn ≠ "" then dn else "Deal " ++ idv)))) ∧
    ((create_integration_item_metadata_object (.obj [("id", .str "42")])
        (pyRstripS "deals")).map (fun it => it.name) =
      .ok (some (.str "Deal 42"))) := by
  refine ⟨?_, rfl, ?_, rfl⟩
  · by_cases hf : fn = "" <;> by_cases hl : ln = "" <;> by_cases he : em = "" <;>
      simp [create_integration_item_metadata_object, contactRecord, pyObjGetD,
        pyObjGet, jsonLookup, Json.truthy, pyStrOf, hf, hl, he,
        except_bind_ok, except_bind_error, except_map_ok, except_map_error,
        except_pure]
  · by_cases hd : dn = "" <;>
      simp [create_integration_item_metadata_object, dealRecord, pyObjGetD,
        pyObjGet, jsonLookup, Json.truthy, pyOr, pyTruthy, pyStrOf, hd,
        except_bind_ok, except_bind_error, except_map_ok, except_map_error,
        except_pure]

/-- C10: a record with no `id` field still converts successfully, with
inconsistent defaults — the item id renders the missing raw id as Python
`None` (`"None_{type}"` for every item type), while the name fallback
renders it as `"Unknown"` (`"Contact Unknown"`, `"Deal Unknown"`,
`"Ticket Unknown"`). -/
theorem c10_missing_id_defaults (t : String) :
    ((create_integration_item_metadata_object noIdRecord t).map
        (fun it => it.id) = .ok ("None_" ++ t)) ∧
    ((create_integration_item_metadata_object noIdRecord "contact").map
        (fun it => it.name) = .ok (some (.str "Contact Unknown"))) ∧
    ((create_integration_item_metadata_object noIdRecord "deal").map
        (fun it => it.name) = .ok (some (.str "Deal Unknown"))) ∧
    ((create_integration_item_metadata_object noIdRecord
        (pyRstripS "tickets")).map (fun it => it.name) =
      .ok (some (.str "Ticket Unknown"))) := by
  refine ⟨?_, rfl, rfl, rfl⟩
  by_cases h1 : t = "contact" <;> by_cases h2 : t = "company" <;>
    by_cases h3 : t = "deal" <;>
    simp_all [create_integration_item_metadata_object, noIdRecord, pyObjGetD,
      pyObjGet, jsonLookup, Json.truthy, pyStrOfOpt, pyStrOf, pyOr, pyTruthy,
      except_bind_ok, except_bind_error, except_map_ok, except_map_error,
      except_pure]
